/- Verification development for the getlisa backend-scripts repository.

   The repository consists of three Node.js scripts:
   - an ingestion script (src/unnamed/part_000) fetching call snapshots from a
     voice-agent provider and upserting them into a call_logs store,
   - an enrichment script (src/staging/gpt-process.js) extracting structured
     fields from transcripts and merging them into still-null columns,
   - a booking-sync script (src/staging/zt-integration.js) draining a manual
     sync queue into an external booking platform with audit logging.

   This file shallowly embeds the pure decision logic of those scripts: machine
   numbers are modelled as Int (JavaScript integer-valued numbers in the ranges
   exercised here are exact), nullable fields as Option, fallible code as
   Except, and the external collaborators (HTTP, database) as explicit inputs
   or as emitted event traces. -/
import Mathlib

namespace Getlisa

/-- JavaScript truthiness for a nullable string value: null/undefined and the
empty string are falsy, every other string is truthy. -/
def jsTruthy : Option String → Bool
  | none => false
  | some s => !(s == "")

/-- Numeric value of an ASCII digit character. -/
def digitVal (c : Char) : Nat := c.toNat - 48

/-- Gregorian leap-year rule, as used by the JavaScript Date object. -/
def isLeapYear (y : Int) : Bool :=
  (y % 4 == 0 && y % 100 != 0) || y % 400 == 0

/-- Number of days in a month of the proleptic Gregorian calendar. -/
def daysInMonth (y m : Int) : Int :=
  if m = 1 ∨ m = 3 ∨ m = 5 ∨ m = 7 ∨ m = 8 ∨ m = 10 ∨ m = 12 then 31
  else if m = 4 ∨ m = 6 ∨ m = 9 ∨ m = 11 then 30
  else if isLeapYear y then 29 else 28

/-- Days since 1970-01-01 of a civil date (standard era-based algorithm). -/
def daysFromCivil (y m d : Int) : Int :=
  let y2 := y - (if m ≤ 2 then 1 else 0)
  let era := Int.fdiv y2 400
  let yoe := y2 - era * 400
  let doy := Int.fdiv (153 * (m + (if m > 2 then -3 else 9)) + 2) 5 + d - 1
  let doe := yoe * 365 + Int.fdiv yoe 4 - Int.fdiv yoe 100 + doy
  era * 146097 + doe - 719468

/-- Civil date (year, month, day) of a count of days since 1970-01-01. -/
def civilFromDays (z0 : Int) : Int × Int × Int :=
  let z := z0 + 719468
  let era := Int.fdiv z 146097
  let doe := z - era * 146097
  let yoe := Int.fdiv (doe - Int.fdiv doe 1460 + Int.fdiv doe 36524 - Int.fdiv doe 146096) 365
  let y := yoe + era * 400
  let doy := doe - (365 * yoe + Int.fdiv yoe 4 - Int.fdiv yoe 100)
  let mp := Int.fdiv (5 * doy + 2) 153
  let d := doy - Int.fdiv (153 * mp + 2) 5 + 1
  let m := mp + (if mp < 10 then 3 else -9)
  (y + (if m ≤ 2 then 1 else 0), m, d)

/-- Left-pad a natural number to two digits. -/
def pad2 (n : Nat) : String := if n < 10 then "0" ++ toString n else toString n

/-- Left-pad a natural number to three digits. -/
def pad3 (n : Nat) : String :=
  if n < 10 then "00" ++ toString n
  else if n < 100 then "0" ++ toString n else toString n

/-- Left-pad a natural number to four digits. -/
def pad4 (n : Nat) : String :=
  if n < 10 then "000" ++ toString n
  else if n < 100 then "00" ++ toString n
  else if n < 1000 then "0" ++ toString n else toString n

/-- Left-pad a natural number to six digits. -/
def pad6 (n : Nat) : String :=
  if n < 10 then "00000" ++ toString n
  else if n < 100 then "0000" ++ toString n
  else if n < 1000 then "000" ++ toString n
  else if n < 10000 then "00" ++ toString n
  else if n < 100000 then "0" ++ toString n else toString n

/-- Model of JavaScript Date.prototype.toISOString: renders an epoch-millisecond
instant as "YYYY-MM-DDTHH:MM:SS.sssZ" (expanded-year form outside 0..9999). -/
def jsToISOString (ms : Int) : String :=
  let day := Int.fdiv ms 86400000
  let rem := (ms - day * 86400000).toNat
  let ymd := civilFromDays day
  let yearStr :=
    if 0 ≤ ymd.1 ∧ ymd.1 ≤ 9999 then pad4 ymd.1.toNat
    else if ymd.1 > 9999 then "+" ++ pad6 ymd.1.toNat
    else "-" ++ pad6 (-ymd.1).toNat
  yearStr ++ "-" ++ pad2 ymd.2.1.toNat ++ "-" ++ pad2 ymd.2.2.toNat ++ "T" ++
    pad2 (rem / 3600000) ++ ":" ++ pad2 (rem / 60000 % 60) ++ ":" ++
    pad2 (rem / 1000 % 60) ++ "." ++ pad3 (rem % 1000) ++ "Z"

/-- Epoch milliseconds of a UTC wall-clock reading (used in theorem statements
to name concrete instants such as 2025-06-01T14:00:00Z). -/
def utcMs (y mo d : Int) (h mi s : Nat) : Int :=
  daysFromCivil y mo d * 86400000 + (h * 3600000 + mi * 60000 + s * 1000 : Nat)

/-- Parse a strict "YYYY-MM-DD" character sequence into a validated civil date. -/
def parseYMDChars : List Char → Option (Int × Int × Int)
  | [y1, y2, y3, y4, '-', a, b, '-', c, d] =>
    if y1.isDigit && y2.isDigit && y3.isDigit && y4.isDigit &&
       a.isDigit && b.isDigit && c.isDigit && d.isDigit then
      let y : Int := (digitVal y1 * 1000 + digitVal y2 * 100 + digitVal y3 * 10 + digitVal y4 : Nat)
      let mo : Int := (digitVal a * 10 + digitVal b : Nat)
      let dd : Int := (digitVal c * 10 + digitVal d : Nat)
      if 1 ≤ mo ∧ mo ≤ 12 ∧ 1 ≤ dd ∧ dd ≤ daysInMonth y mo then some (y, mo, dd)
      else none
    else none
  | _ => none

/-- Parse a "YYYY-MM-DDTHH:MM" or "YYYY-MM-DDTHH:MM:SS" wall-clock reading
(two-digit components, validated ranges), the ISO subset the scripts emit. -/
def parseWallChars : List Char → Option (Int × Int × Int × Nat × Nat × Nat)
  | [y1, y2, y3, y4, '-', a, b, '-', c, d, 'T', h1, h2, ':', m1, m2] =>
    match parseYMDChars [y1, y2, y3, y4, '-', a, b, '-', c, d] with
    | some (y, mo, dd) =>
      if h1.isDigit && h2.isDigit && m1.isDigit && m2.isDigit then
        let h := digitVal h1 * 10 + digitVal h2
        let mi := digitVal m1 * 10 + digitVal m2
        if h ≤ 23 ∧ mi ≤ 59 then some (y, mo, dd, h, mi, 0) else none
      else none
    | none => none
  | [y1, y2, y3, y4, '-', a, b, '-', c, d, 'T', h1, h2, ':', m1, m2, ':', s1, s2] =>
    match parseYMDChars [y1, y2, y3, y4, '-', a, b, '-', c, d] with
    | some (y, mo, dd) =>
      if h1.isDigit && h2.isDigit && m1.isDigit && m2.isDigit && s1.isDigit && s2.isDigit then
        let h := digitVal h1 * 10 + digitVal h2
        let mi := digitVal m1 * 10 + digitVal m2
        let s := digitVal s1 * 10 + digitVal s2
        if h ≤ 23 ∧ mi ≤ 59 ∧ s ≤ 59 then some (y, mo, dd, h, mi, s) else none
      else none
    | none => none
  | _ => none

/-- Epoch milliseconds of a parsed wall-clock reading taken in UTC. -/
def wallMs (y mo d : Int) (h mi s : Nat) : Int :=
  daysFromCivil y mo d * 86400000 + (h * 3600000 + mi * 60000 + s * 1000 : Nat)

/-- Model of new Date(s).getTime() for a Z-suffixed ISO timestamp string.
Strings outside this ISO subset are modelled as an Invalid Date (none). -/
def jsParseUTCTimestamp (s : String) : Option Int :=
  if s.toList.getLast? = some 'Z' then
    match parseWallChars s.toList.dropLast with
    | some (y, mo, d, h, mi, sec) => some (wallMs y mo d h mi sec)
    | none => none
  else none

/-- Model of new Date(s).getTime() for an ISO timestamp without a Z suffix,
which JavaScript interprets in the host timezone: the wall-clock reading minus
the host offset-from-UTC in minutes. Non-ISO strings are an Invalid Date. -/
def jsParseLocalTimestamp (hostOffsetMinutes : Int) (s : String) : Option Int :=
  match parseWallChars s.toList with
  | some (y, mo, d, h, mi, sec) => some (wallMs y mo d h mi sec - hostOffsetMinutes * 60000)
  | none => none

/-- Model of new Date(s).getTime() for a date-only or Z-suffixed string as fed
to the date-role branch of normalizeDateFields: a bare "YYYY-MM-DD" parses as
UTC midnight, a Z-suffixed ISO timestamp parses as UTC; all other formats are
modelled as an Invalid Date (none). -/
def jsParseDateValue (s : String) : Option Int :=
  match parseYMDChars s.toList with
  | some (y, mo, d) => some (daysFromCivil y mo d * 86400000)
  | none => jsParseUTCTimestamp s

/-- Substring search over character lists (the recursion behind a model of
JavaScript String.prototype.includes). -/
def subSearch (needle : List Char) : List Char → Bool
  | [] => needle.isEmpty
  | c :: rest => needle.isPrefixOf (c :: rest) || subSearch needle rest

/-- Model of JavaScript String.prototype.includes. -/
def strContains (hay needle : String) : Bool :=
  subSearch needle.toList hay.toList

/-- First n characters of a string (JavaScript slice(0, n)). -/
def strTake (s : String) (n : Nat) : String := String.mk (s.toList.take n)

/-- String without its first n characters (the start of a JavaScript slice). -/
def strDrop (s : String) (n : Nat) : String := String.mk (s.toList.drop n)

/-- ASCII whitespace test used to model JavaScript trim and the regex \s on
the inputs these scripts handle. -/
def isJsSpace (c : Char) : Bool := c == ' ' || c == '\t' || c == '\n' || c == '\r'

/-- Model of JavaScript String.prototype.toLowerCase restricted to ASCII. -/
def jsToLower (s : String) : String := String.mk (s.toList.map Char.toLower)

/-- Model of JavaScript String.prototype.trim restricted to ASCII whitespace. -/
def jsTrim (s : String) : String :=
  String.mk (((s.toList.dropWhile isJsSpace).reverse.dropWhile isJsSpace).reverse)

/-- Character-level split on commas (JavaScript split(",") semantics, including
the singleton empty part for the empty string). -/
def splitCommaChars : List Char → List (List Char)
  | [] => [[]]
  | ',' :: rest => [] :: splitCommaChars rest
  | c :: rest =>
    match splitCommaChars rest with
    | [] => [[c]]
    | p :: ps => (c :: p) :: ps

/-- Model of JavaScript String.prototype.split(","). -/
def jsSplitComma (s : String) : List String := (splitCommaChars s.toList).map String.mk

/-- Matcher for the optional-seconds tail of the time regex, i.e. (:\d\d)?$ . -/
def timeTail : List Char → Bool
  | [] => true
  | [':', a, b] => a.isDigit && b.isDigit
  | _ => false

/-- Matcher for the regex /^\d{1,2}:\d{2}(:\d{2})?$/ used by normalizeDateFields
on time-role fields. -/
def timeRegexMatches (s : String) : Bool :=
  match s.toList with
  | a :: ':' :: m :: n :: rest => a.isDigit && m.isDigit && n.isDigit && timeTail rest
  | a :: b :: ':' :: m :: n :: rest =>
    a.isDigit && b.isDigit && m.isDigit && n.isDigit && timeTail rest
  | _ => false

/-- Matcher for the regex /^\d{10,}$/ that normalizeDateFields uses to detect an
epoch-like numeric string. -/
def isEpochDigits (s : String) : Bool :=
  s.length ≥ 10 && s.toList.all Char.isDigit

/-- Natural-number value of an all-digits string (JavaScript Number on a digit
string; exact here, whereas JavaScript loses precision beyond 2^53, far beyond
the epoch values the scripts handle). -/
def digitsToNat (s : String) : Nat :=
  s.toList.foldl (fun acc c => acc * 10 + digitVal c) 0

/- ------------------------------------------------------------------
   Ingestion script (src/unnamed/part_000): record reconciler and the
   normalizeDateFields field normalizer shared with gpt-process.js.
   ------------------------------------------------------------------ -/

/-- Raw call snapshot as fetched from the call-listing provider, restricted to
the fields the reconciler and its callers read; call_status and transcript
stand in for the snapshot content that the reconciler must ignore. -/
structure RawCall where
  call_id : String
  call_status : Option String
  transcript : Option String
deriving DecidableEq, Repr

/-- Decision of filterCallsForProcessing for a single snapshot, against the
stored lookup of call_id to stored call_status: a snapshot with no stored row
needs processing; a stored row with status "ended" or "failed" is skipped;
any other stored row needs an update. -/
def needsProcessing (existing : String → Option String) (call : RawCall) : Bool :=
  match existing call.call_id with
  | none => true
  | some st => !(st == "ended" || st == "failed")

/-- Embedding of filterCallsForProcessing: keep exactly the snapshots that need
processing, in input order (Array.prototype.filter preserves order). -/
def filterCallsForProcessing (calls : List RawCall) (existing : String → Option String) :
    List RawCall :=
  calls.filter (needsProcessing existing)

/-- Loosely-typed value reaching normalizeDateFields: a JSON string or number. -/
inductive JsVal where
  | str (s : String)
  | num (n : Int)
deriving DecidableEq, Repr

/-- Placeholder-for-unknown test at the top of normalizeDateFields: literal
placeholder strings, or strings whose lowercasing contains a vague day-part or
deferral phrase, normalize to null. -/
def isUnknownPlaceholder (dateStr : String) : Bool :=
  dateStr == "" || dateStr == "null" || dateStr == "undefined" ||
  dateStr == "unknown" || dateStr == "Not specified" ||
  strContains (jsToLower dateStr) "morning" ||
  strContains (jsToLower dateStr) "afternoon" ||
  strContains (jsToLower dateStr) "evening" ||
  strContains (jsToLower dateStr) "next week" ||
  strContains (jsToLower dateStr) "to be confirmed"

/-- Conversion of an epoch-millisecond number per field role, i.e. the
new Date(num).toISOString() slicing in normalizeDateFields: date fields keep
the calendar date, time fields keep "HH:MM:SS", others the full ISO instant.
(JavaScript would throw past the Date range of about 8.64e15 ms; the inputs
the scripts handle are far inside it.) -/
def epochToFieldString (field : String) (n : Int) : String :=
  if field = "appointment_date" then strTake (jsToISOString n) 10
  else if field = "appointment_time" ∨ field = "appointment_start" ∨ field = "appointment_end" then
    strTake (strDrop (jsToISOString n) 11) 8
  else jsToISOString n

/-- Per-field body of normalizeDateFields for one non-null value: trim, null
out placeholders, convert 10-plus-digit strings as epoch numbers, parse
date-role strings as calendar dates, gate time-role strings on the
H:MM[:SS] pattern, convert numbers as epoch milliseconds, and leave any other
field role unchanged for non-epoch strings. -/
def normalizeFieldValue (field : String) (v : JsVal) : Option JsVal :=
  match v with
  | .str s0 =>
    let dateStr := jsTrim s0
    if isUnknownPlaceholder dateStr then none
    else if isEpochDigits dateStr then some (.str (epochToFieldString field (digitsToNat dateStr)))
    else if field = "appointment_date" then
      match jsParseDateValue dateStr with
      | some ms => some (.str (strTake (jsToISOString ms) 10))
      | none => none
    else if field = "appointment_time" ∨ field = "appointment_start" ∨ field = "appointment_end" then
      if timeRegexMatches dateStr then some (.str dateStr) else none
    else some (.str s0)
  | .num n => some (.str (epochToFieldString field n))

/-- Embedding of normalizeDateFields over an object viewed as a map from field
name to nullable value: listed fields with a non-null value are rewritten by
normalizeFieldValue, everything else is left untouched. -/
def normalizeDateFields (obj : String → Option JsVal) (dateFields : List String) :
    String → Option JsVal :=
  fun k => if k ∈ dateFields then (obj k).bind (normalizeFieldValue k) else obj k

/- ------------------------------------------------------------------
   Enrichment script (src/staging/gpt-process.js): the per-record update
   built by processCallsWithGPT and its application to the stored row.
   ------------------------------------------------------------------ -/

/-- Stored call_logs row as read by the enrichment pipeline, restricted to the
columns processCallsWithGPT consults (none means SQL NULL). -/
structure StoredCall where
  call_id : String
  transcript : Option String
  appointment_date : Option String
  appointment_time : Option String
  client_name : Option String
  client_address : Option String
  client_email : Option String
  intent : Option String
  summary : Option String
  quick_summary : Option String
  job_description : Option String
  job_type : Option String
  appointment_start : Option String
  appointment_end : Option String
  lead_type : Option String
deriving DecidableEq, Repr

/-- Parsed extraction-provider result (all fields nullable; a missing key and a
JSON null are both none, an empty parse result is all none). -/
structure Extracted where
  client_name : Option String
  client_email : Option String
  client_address : Option String
  appointment_date : Option String
  appointment_time : Option String
  summary : Option String
  quick_summary : Option String
  intent_category : Option String
  job_description : Option String
  job_type : Option String
  appointment_start : Option String
  appointment_end : Option String
deriving DecidableEq, Repr

/-- Per-record update object assembled by processCallsWithGPT: none means the
key is absent from the update (the always-present updated_at timestamp is kept
out of the model; it carries no enrichment data). -/
structure GPTUpdate where
  appointment_date : Option String
  appointment_time : Option String
  client_name : Option String
  client_address : Option String
  client_email : Option String
  intent : Option String
  summary : Option String
  quick_summary : Option String
  job_description : Option String
  job_type : Option String
  appointment_start : Option String
  appointment_end : Option String
  lead_type : Option String
deriving DecidableEq, Repr

/-- Update construction of processCallsWithGPT: each field enters the update
only when the stored column is null (strict === null check) and the extraction
value is truthy; appointment_time is filled from the extraction result's
appointment_start; lead_type is derived from the extracted intent category when
it is one of Service, Emergency, Quotation. -/
def buildGPTUpdate (call : StoredCall) (extracted : Extracted) : GPTUpdate where
  appointment_date :=
    if call.appointment_date = none ∧ jsTruthy extracted.appointment_date then
      extracted.appointment_date else none
  appointment_time :=
    if call.appointment_time = none ∧ jsTruthy extracted.appointment_start then
      extracted.appointment_start else none
  client_name :=
    if call.client_name = none ∧ jsTruthy extracted.client_name then
      extracted.client_name else none
  client_address :=
    if call.client_address = none ∧ jsTruthy extracted.client_address then
      extracted.client_address else none
  client_email :=
    if call.client_email = none ∧ jsTruthy extracted.client_email then
      extracted.client_email else none
  intent :=
    if call.intent = none ∧ jsTruthy extracted.intent_category then
      extracted.intent_category else none
  summary :=
    if call.summary = none ∧ jsTruthy extracted.summary then
      extracted.summary else none
  quick_summary :=
    if call.quick_summary = none ∧ jsTruthy extracted.quick_summary then
      extracted.quick_summary else none
  job_description :=
    if call.job_description = none ∧ jsTruthy extracted.job_description then
      extracted.job_description else none
  job_type :=
    if call.job_type = none ∧ jsTruthy extracted.job_type then
      extracted.job_type else none
  appointment_start :=
    if call.appointment_start = none ∧ jsTruthy extracted.appointment_start then
      extracted.appointment_start else none
  appointment_end :=
    if call.appointment_end = none ∧ jsTruthy extracted.appointment_end then
      extracted.appointment_end else none
  lead_type :=
    if call.lead_type = none ∧ jsTruthy extracted.intent_category then
      (if extracted.intent_category = some "Service" ∨
          extracted.intent_category = some "Emergency" ∨
          extracted.intent_category = some "Quotation" then
        extracted.intent_category else none)
    else none

/-- Effect on the stored row of the store-side update call with a buildGPTUpdate
object: keys present in the update overwrite the column, absent keys leave it. -/
def applyGPTUpdate (call : StoredCall) (u : GPTUpdate) : StoredCall where
  call_id := call.call_id
  transcript := call.transcript
  appointment_date := u.appointment_date.orElse fun _ => call.appointment_date
  appointment_time := u.appointment_time.orElse fun _ => call.appointment_time
  client_name := u.client_name.orElse fun _ => call.client_name
  client_address := u.client_address.orElse fun _ => call.client_address
  client_email := u.client_email.orElse fun _ => call.client_email
  intent := u.intent.orElse fun _ => call.intent
  summary := u.summary.orElse fun _ => call.summary
  quick_summary := u.quick_summary.orElse fun _ => call.quick_summary
  job_description := u.job_description.orElse fun _ => call.job_description
  job_type := u.job_type.orElse fun _ => call.job_type
  appointment_start := u.appointment_start.orElse fun _ => call.appointment_start
  appointment_end := u.appointment_end.orElse fun _ => call.appointment_end
  lead_type := u.lead_type.orElse fun _ => call.lead_type

/- ------------------------------------------------------------------
   Booking-sync script (src/staging/zt-integration.js): field normalizers,
   lead validation, payload construction, audit-row construction and the
   per-queue-item event trace.
   ------------------------------------------------------------------ -/

/-- Word character of JavaScript regex \w and word boundaries: ASCII letters,
digits and underscore. -/
def isWordChar (c : Char) : Bool := c.isAlphanum || c == '_'

/-- Word boundary \b between the previous character (none at string start) and
a following word character. -/
def boundaryBefore (prev : Option Char) : Bool :=
  match prev with
  | none => true
  | some p => !isWordChar p

/-- Trailing word boundary \b after a word character, given the rest of the
input. -/
def boundaryAfter : List Char → Bool
  | [] => true
  | c :: _ => !isWordChar c

/-- Matcher for the US-ZIP alternative \d{5}(?:-\d{4})?\b of the postal-code
regex, anchored at the start of the input; returns the matched characters and
the rest. The greedy optional -\d{4} group is tried first, falling back to the
bare five digits (whose trailing boundary then holds, the next character being
a hyphen). -/
def zipUSAt : List Char → Option (List Char × List Char)
  | a :: b :: c :: d :: e :: rest =>
    if a.isDigit && b.isDigit && c.isDigit && d.isDigit && e.isDigit then
      match rest with
      | '-' :: f :: g :: h :: i :: rest2 =>
        if f.isDigit && g.isDigit && h.isDigit && i.isDigit && boundaryAfter rest2 then
          some ([a, b, c, d, e, '-', f, g, h, i], rest2)
        else if boundaryAfter rest then some ([a, b, c, d, e], rest) else none
      | _ => if boundaryAfter rest then some ([a, b, c, d, e], rest) else none
    else none
  | _ => none

/-- Matcher for the tail \s?\d[A-Z]\d\b of the full Canadian-postal alternative
(one optional whitespace, deterministic because the digit group cannot start
with whitespace). -/
def canTailAt : List Char → Option (List Char × List Char)
  | x :: rest =>
    if isJsSpace x then
      match rest with
      | d :: l :: e :: rest2 =>
        if d.isDigit && l.isAlpha && e.isDigit && boundaryAfter rest2 then
          some ([x, d, l, e], rest2)
        else none
      | _ => none
    else
      match x :: rest with
      | d :: l :: e :: rest2 =>
        if d.isDigit && l.isAlpha && e.isDigit && boundaryAfter rest2 then
          some ([d, l, e], rest2)
        else none
      | _ => none
  | [] => none

/-- Matcher for the full Canadian-postal alternative
[A-Z]\d[A-Z]\s?\d[A-Z]\d\b anchored at the start of the input. -/
def canFullAt : List Char → Option (List Char × List Char)
  | l1 :: d1 :: l2 :: rest =>
    if l1.isAlpha && d1.isDigit && l2.isAlpha then
      match canTailAt rest with
      | some (m, rest2) => some (l1 :: d1 :: l2 :: m, rest2)
      | none => none
    else none
  | _ => none

/-- Matcher for the short Canadian-postal alternative [A-Z]\d[A-Z]\b anchored
at the start of the input. -/
def canShortAt : List Char → Option (List Char × List Char)
  | l1 :: d1 :: l2 :: rest =>
    if l1.isAlpha && d1.isDigit && l2.isAlpha && boundaryAfter rest then
      some ([l1, d1, l2], rest)
    else none
  | _ => none

/-- Postal-code alternatives of the zipRegex in parseAddress, in regex
alternation order, each with its trailing word boundary enforced. -/
def postalAt (cs : List Char) : Option (List Char × List Char) :=
  match zipUSAt cs with
  | some r => some r
  | none =>
    match canFullAt cs with
    | some r => some r
    | none => canShortAt cs

/-- Scan of the zipRegex /\b\d{5}(?:-\d{4})?\b|\b[A-Z]\d[A-Z]\s?\d[A-Z]\d\b|
\b[A-Z]\d[A-Z]\b/i over a part of the address: leftmost match wins; returns the
matched postal-code text. -/
def zipSearch (prev : Option Char) : List Char → Option String
  | [] => none
  | c :: rest =>
    match (if boundaryBefore prev then postalAt (c :: rest) else none) with
    | some (m, _) => some (String.mk m)
    | none => zipSearch (some c) rest

/-- Matcher, anchored at the start, for the stateRegex body
([A-Z]{2})\s+(?:\d{5}(?:-\d{4})?|[A-Z]\d[A-Z]\s?\d[A-Z]\d|[A-Z]\d[A-Z])\b :
two letters, at least one whitespace, then a postal alternative; returns the
upper-cased two-letter capture. -/
def stateAt : List Char → Option String
  | l1 :: l2 :: rest =>
    if l1.isAlpha && l2.isAlpha then
      match rest with
      | x :: rest2 =>
        if isJsSpace x then
          match postalAt (rest2.dropWhile isJsSpace) with
          | some _ => some (String.mk [l1.toUpper, l2.toUpper])
          | none => none
        else none
      | [] => none
    else none
  | _ => none

/-- Scan of the stateRegex over a part of the address: leftmost match wins. -/
def stateSearch (prev : Option Char) : List Char → Option String
  | [] => none
  | c :: rest =>
    match (if boundaryBefore prev then stateAt (c :: rest) else none) with
    | some st => some st
    | none => stateSearch (some c) rest

/-- Address record produced by parseAddress for the booking payload. -/
structure ZTAddress where
  addressLineOne : String
  city : String
  state : String
  country : String
  zipCode : String
deriving DecidableEq, Repr

/-- Fixed address record for placeholder or absent input. -/
def unknownAddress : ZTAddress where
  addressLineOne := "Address not provided"
  city := "Unknown City"
  state := "Unknown State"
  country := "US"
  zipCode := "00000"

/-- Index, text and matched postal code of the first comma-part containing a
postal-code token. -/
def findZipPart : List String → Option (Nat × String × String)
  | [] => none
  | p :: rest =>
    match zipSearch none p.toList with
    | some z => some (0, p, z)
    | none => (findZipPart rest).map (fun r => (r.1 + 1, r.2.1, r.2.2))

/-- JavaScript String.prototype.toUpperCase restricted to ASCII. -/
def jsToUpper (s : String) : String := String.mk (s.toList.map Char.toUpper)

/-- Embedding of parseAddress: placeholder input yields the fixed unknown
record; otherwise the address is split on commas, the first part holding a
postal-code token fixes zipCode and (via the state regex) the state, the city
is the part before the state/zip part (or the second part as fallback), and
the country is normalized from the last part, defaulting to US. -/
def parseAddress (address : Option String) : ZTAddress :=
  match address with
  | none => unknownAddress
  | some a =>
    if a = "" ∨ a = "null" ∨ a = "Not mentioned" then unknownAddress
    else
      let parts := (jsSplitComma a).map jsTrim
      let zipHit := findZipPart parts
      let zipCode := match zipHit with | some r => r.2.2 | none => "00000"
      let state :=
        match zipHit with
        | some r => (stateSearch none r.2.1.toList).getD "Unknown State"
        | none => "Unknown State"
      let stateZipIndex : Option Nat := zipHit.map (·.1)
      let addressLineOne :=
        match parts.head? with
        | some p => if p = "" then "Address not provided" else p
        | none => "Address not provided"
      let city :=
        match stateZipIndex with
        | some i =>
          if i > 0 then
            match parts.get? (i - 1) with
            | some p => if p = "" then "Unknown City" else p
            | none => "Unknown City"
          else if parts.length > 1 then
            match parts.get? 1 with
            | some p => if p = "" then "Unknown City" else p
            | none => "Unknown City"
          else "Unknown City"
        | none =>
          if parts.length > 1 then
            match parts.get? 1 with
            | some p => if p = "" then "Unknown City" else p
            | none => "Unknown City"
          else "Unknown City"
      let country :=
        match parts.getLast? with
        | some lastPart =>
          let lp := jsToUpper lastPart
          if lp = "CANADA" ∨ lp = "CA" ∨ lp = "CAN" then "Canada"
          else "US"
        | none => "US"
      { addressLineOne, city, state, country, zipCode }

/-- Embedding of formatPhoneNumber: strip non-digits; 11 digits with a leading
1, or exactly 10 digits, are formatted as "(NXX) NXX-XXXX"; anything else
(including absent input) yields the fixed placeholder. -/
def formatPhoneNumber (phone : Option String) : String :=
  match phone with
  | none => "(555) 555-5555"
  | some s =>
    if s = "" then "(555) 555-5555"
    else
      let digits := s.toList.filter Char.isDigit
      if digits.length = 11 ∧ digits.head? = some '1' then
        "(" ++ String.mk ((digits.drop 1).take 3) ++ ") " ++
          String.mk ((digits.drop 4).take 3) ++ "-" ++ String.mk ((digits.drop 7).take 4)
      else if digits.length = 10 then
        "(" ++ String.mk (digits.take 3) ++ ") " ++
          String.mk ((digits.drop 3).take 3) ++ "-" ++ String.mk ((digits.drop 6).take 4)
      else "(555) 555-5555"

/-- Matcher for the email regex /^[^\s@]+@[^\s@]+\.[^\s@]+$/ : no whitespace,
exactly one at-sign with a non-empty local part, and a dot strictly inside the
part after the at-sign. -/
def emailRegexMatches (s : String) : Bool :=
  let cs := s.toList
  (cs.all fun c => !isJsSpace c) &&
  (cs.count '@' == 1) &&
  (match cs.splitOn '@' with
   | [before, after] =>
     !before.isEmpty && ((after.drop 1).dropLast.contains '.')
   | _ => false)

/-- Embedding of cleanEmail: absent or empty input yields null; otherwise all
whitespace is removed and the result is kept only if it matches the permissive
single-at, dotted-domain pattern. -/
def cleanEmail (email : Option String) : Option String :=
  match email with
  | none => none
  | some s =>
    if s = "" then none
    else
      let cleaned := String.mk (s.toList.filter fun c => !isJsSpace c)
      if emailRegexMatches cleaned then some cleaned else none

/-- Stored call_logs row as read by the booking-sync engine (the lead),
restricted to the fields validateLeadData and transformLeadToZTBooking use. -/
structure Lead where
  call_id : String
  agent_id : Option String
  client_name : Option String
  client_email : Option String
  client_address : Option String
  from_number : Option String
  appointment_date : Option String
  appointment_start : Option String
  appointment_end : Option String
  job_description : Option String
deriving DecidableEq, Repr

/-- Ambient JavaScript runtime facts the scripts read implicitly: the current
instant (Date.now, new Date()) and the host timezone offset-from-UTC in
minutes, which governs parsing of ISO strings without a Z suffix. -/
structure JsEnv where
  nowMs : Int
  hostOffsetMinutes : Int
deriving DecidableEq, Repr

/-- Missing-or-invalid email test of validateLeadData: absent, the literal
placeholders "null" and "Not mentioned", whitespace-only, or failing
cleanEmail. -/
def emailMissingOrInvalid (lead : Lead) : Bool :=
  match lead.client_email with
  | none => true
  | some s =>
    s == "" || s == "null" || s == "Not mentioned" || jsTrim s == "" ||
      (cleanEmail (some s)).isNone

/-- Missing-phone test of validateLeadData. -/
def phoneMissing (lead : Lead) : Bool :=
  match lead.from_number with
  | none => true
  | some s => s == "" || s == "null" || jsTrim s == ""

/-- Missing-address test of validateLeadData. -/
def addressMissing (lead : Lead) : Bool :=
  match lead.client_address with
  | none => true
  | some s => s == "" || s == "null" || s == "Not mentioned" || jsTrim s == ""

/-- JavaScript comparison a <= b where a may be an Invalid Date (NaN compares
false). -/
def jsLeNaN (a : Option Int) (b : Int) : Bool :=
  match a with
  | some x => x ≤ b
  | none => false

/-- JavaScript comparison a <= b where either side may be an Invalid Date. -/
def jsLeNaN2 (a b : Option Int) : Bool :=
  match a, b with
  | some x, some y => x ≤ y
  | _, _ => false

/-- Appointment-time errors of validateLeadData: with a truthy start, end and
date, the start (parsed as a host-local wall clock) must lie strictly in the
future and the end strictly after the start; with only a truthy non-"null"
date, that date must lie strictly in the future. -/
def appointmentErrors (env : JsEnv) (lead : Lead) : List String :=
  if jsTruthy lead.appointment_start ∧ jsTruthy lead.appointment_end ∧
      jsTruthy lead.appointment_date then
    let start := jsParseLocalTimestamp env.hostOffsetMinutes
      (lead.appointment_date.getD "" ++ "T" ++ lead.appointment_start.getD "")
    let stop := jsParseLocalTimestamp env.hostOffsetMinutes
      (lead.appointment_date.getD "" ++ "T" ++ lead.appointment_end.getD "")
    (if jsLeNaN start env.nowMs then ["Appointment start time must be in the future"] else []) ++
    (if jsLeNaN2 stop start then ["Appointment end time must be after start time"] else [])
  else if jsTruthy lead.appointment_date ∧ lead.appointment_date ≠ some "null" then
    let date := jsParseDateValue (lead.appointment_date.getD "")
    if jsLeNaN date env.nowMs then ["Appointment date must be in the future"] else []
  else []

/-- Validation result of validateLeadData. -/
structure ValidationResult where
  isValid : Bool
  errors : List String
deriving DecidableEq, Repr

/-- Embedding of validateLeadData: the error list accumulates, in source order,
the email, phone, address and appointment-time errors; the lead is valid when
the list is empty. -/
def validateLeadData (env : JsEnv) (lead : Lead) : ValidationResult :=
  let errors :=
    (if emailMissingOrInvalid lead then ["Missing or invalid email address"] else []) ++
    (if phoneMissing lead then ["Missing phone number"] else []) ++
    (if addressMissing lead then ["Missing address"] else []) ++
    appointmentErrors env lead
  { isValid := errors.isEmpty, errors }

/-- Booking payload sent to the external booking platform. -/
structure ZTBookingPayload where
  startBookingTime : String
  endBookingTime : String
  bookDate : String
  name : Option String
  email : String
  phoneNumber : String
  addressLineOne : String
  addressLineTwo : String
  city : String
  state : String
  country : String
  zipCode : String
  companyId : Int
  description : Option String
  source : String
deriving DecidableEq, Repr, Inhabited

/-- Appointment-time resolution of transformLeadToZTBooking. With a truthy
appointment start and date, the wall-clock reading "date T start" is parsed as
UTC and the offset-from-UTC (in minutes) is subtracted; with only a truthy
non-"null" date, the fixed 06:30:00 reading of that date is used the same way;
otherwise the current date with the fixed time-of-day is parsed in the host
timezone. The end is always start plus 60 minutes, and bookDate equals the
start. An unparseable reading makes toISOString throw (Invalid time value). -/
def transformTimes (lead : Lead) (offsetMinutes : Int) (env : JsEnv) :
    Except String (String × String × String) :=
  let currentDate := strTake (jsToISOString env.nowMs) 10
  if jsTruthy lead.appointment_start ∧ jsTruthy lead.appointment_date then
    match jsParseUTCTimestamp
        (lead.appointment_date.getD "" ++ "T" ++ lead.appointment_start.getD "" ++ "Z") with
    | none => .error "Invalid time value"
    | some displayMs =>
      let utcTime := displayMs - offsetMinutes * 60000
      .ok (jsToISOString utcTime, jsToISOString (utcTime + 60 * 60 * 1000), jsToISOString utcTime)
  else if jsTruthy lead.appointment_date ∧ lead.appointment_date ≠ some "null" then
    match jsParseUTCTimestamp (lead.appointment_date.getD "" ++ "T06:30:00Z") with
    | none => .error "Invalid time value"
    | some defaultMs =>
      let adjusted := defaultMs - offsetMinutes * 60000
      .ok (jsToISOString adjusted, jsToISOString (adjusted + 60 * 60 * 1000),
        jsToISOString adjusted)
  else
    match jsParseLocalTimestamp env.hostOffsetMinutes (currentDate ++ "T06:30:00") with
    | none => .error "Invalid time value"
    | some defaultMs =>
      let adjusted := defaultMs - offsetMinutes * 60000
      .ok (jsToISOString adjusted, jsToISOString (adjusted + 60 * 60 * 1000),
        jsToISOString adjusted)

/-- Embedding of transformLeadToZTBooking. The company timezone name is turned
into an offset-from-UTC by getTimezoneOffsetMinutes, an Intl-based computation
on the current instant abstracted here as the function tzOffsetOf; a null
timezone gives offset 0. Appointment times resolve via transformTimes; the
address resolves via parseAddress, the phone via formatPhoneNumber, and a lead
whose email fails cleanEmail makes construction throw. -/
def transformLeadToZTBooking (lead : Lead) (ztCompanyId : Int) (timezone : Option String)
    (tzOffsetOf : String → Int) (env : JsEnv) : Except String ZTBookingPayload :=
  let addressParts := parseAddress lead.client_address
  let offsetMinutes : Int :=
    match timezone with
    | some tz => if tz = "" then 0 else tzOffsetOf tz
    | none => 0
  match transformTimes lead offsetMinutes env with
  | .error e => .error e
  | .ok (startBookingTime, endBookingTime, bookDate) =>
    match cleanEmail lead.client_email with
    | none => .error "Email is required for ZT booking"
    | some validEmail =>
      .ok { startBookingTime, endBookingTime, bookDate,
            name := lead.client_name,
            email := validEmail,
            phoneNumber := formatPhoneNumber lead.from_number,
            addressLineOne := addressParts.addressLineOne,
            addressLineTwo := " ",
            city := addressParts.city,
            state := addressParts.state,
            country := addressParts.country,
            zipCode := addressParts.zipCode,
            companyId := ztCompanyId,
            description := lead.job_description,
            source := "Web" }

/-- Login response of the booking-auth provider as read by requestZTToken:
the access-token at json.result["access-token"] and the company identifier at
json.result.user.company.id, either possibly absent. -/
structure LoginResponse where
  accessToken : Option String
  companyId : Option Int
deriving DecidableEq, Repr

/-- Result of requestZTToken. -/
structure ZTTokenResult where
  token : String
  user_id : String
  company_id : Int
  timezone : Option String
deriving DecidableEq, Repr

/-- Embedding of requestZTToken after a successful login HTTP exchange: a falsy
access-token throws; the company timezone is fetched (companyTz names the
outcome of that secondary call, none on absence or failure) only when the
company identifier is truthy; the returned company_id falls back to 3 when the
login response carries no truthy company identifier. -/
def requestZTToken (resp : LoginResponse) (userId : String) (companyTz : Option String) :
    Except String ZTTokenResult :=
  match resp.accessToken with
  | none => .error "No access-token"
  | some t =>
    if t = "" then .error "No access-token"
    else
      .ok { token := t,
            user_id := userId,
            company_id := match resp.companyId with
              | some n => if n = 0 then 3 else n
              | none => 3,
            timezone := match resp.companyId with
              | some n => if n = 0 then none else companyTz
              | none => none }

/-- Audit row written to zt_sync_logs (the update and insert branches of
logSyncAttempt write the same field values; the row key and timestamps are
carried by the store). -/
structure SyncLogRow where
  call_log_id : String
  zt_booking_id : Option String
  sync_status : String
  error_message : Option String
deriving DecidableEq, Repr

/-- Row values written by logSyncAttempt: the error message is normalized to
null unless the status is "failed", in which case a falsy supplied message
defaults to "Unknown error". -/
def logSyncAttemptRow (callLogId : String) (status : String) (ztBookingId : Option String)
    (errorMessage : Option String) : SyncLogRow :=
  { call_log_id := callLogId,
    zt_booking_id := ztBookingId,
    sync_status := status,
    error_message :=
      if status = "failed" then
        some (match errorMessage with
          | some m => if m = "" then "Unknown error" else m
          | none => "Unknown error")
      else none }

/-- Observable external writes of one runManualQueue loop iteration: an audit
write through logSyncAttempt, a status update of the zt_manual_sync queue
entry, or the external booking-creation call. -/
inductive Event where
  | auditWrite (status : String) (bookingId : Option String) (msg : Option String)
  | queueUpdate (status : String) (bookingId : Option String) (msg : Option String)
  | bookingCall
deriving DecidableEq, Repr

/-- Outcome of the awaited createZTBooking call: a 2xx response with the
returned booking identifier, a non-2xx response with the provider message, or
a thrown exception. -/
inductive BookingOutcome where
  | success (bookingId : Option String)
  | failure (err : String)
  | threw (msg : String)
deriving DecidableEq, Repr

/-- Events of the per-item catch block: the failed audit write followed by the
failed queue transition, both carrying the exception message; when the audit
write inside the catch itself throws (catchOk false) nothing is written and
the exception escapes the loop. -/
def catchTrace (catchOk : Bool) (msg : String) : List Event :=
  if catchOk then
    [.auditWrite "failed" none (some msg), .queueUpdate "failed" none (some msg)]
  else []

/-- Execution shapes of one runManualQueue loop iteration, enumerating where
the awaited external operations can throw. leadLookupFailed covers a missing
or non-ended call_logs row; tokenThrew an exception inside getZTTokenForAgent;
normal the iteration where every store write succeeds, with the booking
outcome free; the remaining constructors name the write that threw (the
validation-branch audit or queue write, the pending audit, the outcome audit,
or the final queue update after a success or failure audit). -/
inductive ItemScenario where
  | leadLookupFailed (callId : String) (catchOk : Bool)
  | tokenThrew (msg : String) (catchOk : Bool)
  | normal (lead : Lead) (b : BookingOutcome) (catchOk : Bool)
  | validationAuditThrew (msg : String) (catchOk : Bool)
  | validationQueueThrew (errs : List String) (msg : String) (catchOk : Bool)
  | pendingAuditThrew (msg : String) (catchOk : Bool)
  | outcomeAuditThrew (msg : String) (catchOk : Bool)
  | successQueueThrew (bookingId : Option String) (msg : String) (catchOk : Bool)
  | failureQueueThrew (err : String) (msg : String) (catchOk : Bool)

/-- Event trace of one runManualQueue loop iteration, following the source
order: validation failure writes the failed audit then the failed queue
transition and moves on; otherwise the pending audit is written, the booking
call made, and the matching success or failed audit is written before the
queue transition; any exception lands in the catch block, which again writes
the failed audit before the failed queue transition. -/
def processItemTrace (env : JsEnv) : ItemScenario → List Event
  | .leadLookupFailed callId catchOk => catchTrace catchOk ("Lead not found: " ++ callId)
  | .tokenThrew msg catchOk => catchTrace catchOk msg
  | .normal lead b catchOk =>
    let v := validateLeadData env lead
    if v.isValid then
      [.auditWrite "pending" none none, .bookingCall] ++
      (match b with
       | .success bookingId =>
         [.auditWrite "success" bookingId none, .queueUpdate "success" bookingId none]
       | .failure err =>
         [.auditWrite "failed" none (some err), .queueUpdate "failed" none (some err)]
       | .threw msg => catchTrace catchOk msg)
    else
      [.auditWrite "failed" none
         (some ("Validation failed: " ++ String.intercalate ", " v.errors)),
       .queueUpdate "failed" none (some (String.intercalate ", " v.errors))]
  | .validationAuditThrew msg catchOk => catchTrace catchOk msg
  | .validationQueueThrew errs msg catchOk =>
    [.auditWrite "failed" none (some ("Validation failed: " ++ String.intercalate ", " errs))] ++
      catchTrace catchOk msg
  | .pendingAuditThrew msg catchOk => catchTrace catchOk msg
  | .outcomeAuditThrew msg catchOk =>
    [.auditWrite "pending" none none, .bookingCall] ++ catchTrace catchOk msg
  | .successQueueThrew bookingId msg catchOk =>
    [.auditWrite "pending" none none, .bookingCall, .auditWrite "success" bookingId none] ++
      catchTrace catchOk msg
  | .failureQueueThrew err msg catchOk =>
    [.auditWrite "pending" none none, .bookingCall, .auditWrite "failed" none (some err)] ++
      catchTrace catchOk msg

/-- Checker for the audit-before-status discipline: scanning left to right with
the set of already-written audit statuses, every queue update must carry a
status some earlier audit write already carried. -/
def auditSeen (seen : List String) : List Event → Bool
  | [] => true
  | .auditWrite st _ _ :: rest => auditSeen (st :: seen) rest
  | .queueUpdate st _ _ :: rest => if st ∈ seen then auditSeen seen rest else false
  | .bookingCall :: rest => auditSeen seen rest

/- ------------------------------------------------------------------
   Concrete inputs used by witness theorems.
   ------------------------------------------------------------------ -/

/-- Snapshot whose call_id is stored with terminal status in the witness
lookup. -/
def rawEnded : RawCall where
  call_id := "a"
  call_status := some "ended"
  transcript := some "hello"

/-- Content variant of rawEnded with the same call_id. -/
def rawEndedVariant : RawCall where
  call_id := "a"
  call_status := some "ended"
  transcript := some "different content"

/-- Snapshot whose call_id is stored with non-terminal status in the witness
lookup. -/
def rawOngoing : RawCall where
  call_id := "b"
  call_status := some "ongoing"
  transcript := some "hi"

/-- Snapshot whose call_id is not stored in the witness lookup. -/
def rawNew : RawCall where
  call_id := "c"
  call_status := some "ended"
  transcript := none

/-- Witness stored lookup: call "a" is stored ended, call "b" stored ongoing. -/
def storedLookupW (id : String) : Option String :=
  if id = "a" then some "ended" else if id = "b" then some "ongoing" else none

/-- Stored row with a null client_email and otherwise null contact fields, for
the enrichment witnesses. -/
def storedNullEmail : StoredCall where
  call_id := "call_1"
  transcript := some "long transcript text"
  appointment_date := none
  appointment_time := none
  client_name := none
  client_address := none
  client_email := none
  intent := none
  summary := none
  quick_summary := none
  job_description := none
  job_type := none
  appointment_start := none
  appointment_end := none
  lead_type := none

/-- First extraction result of the enrichment witness. -/
def extractedFirst : Extracted where
  client_name := some "Jane"
  client_email := some "first@example.com"
  client_address := none
  appointment_date := none
  appointment_time := some "10:00"
  summary := none
  quick_summary := none
  intent_category := some "Service"
  job_description := none
  job_type := none
  appointment_start := some "09:30"
  appointment_end := none

/-- Second extraction result with a different email. -/
def extractedSecond : Extracted where
  client_name := some "Janet"
  client_email := some "second@example.com"
  client_address := none
  appointment_date := none
  appointment_time := none
  summary := none
  quick_summary := none
  intent_category := none
  job_description := none
  job_type := none
  appointment_start := none
  appointment_end := none

/-- Witness runtime environment (an arbitrary concrete instant, host at UTC). -/
def envW : JsEnv where
  nowMs := 1748000000000
  hostOffsetMinutes := 0

/-- Lead passing every validateLeadData check (no appointment fields, so the
future-date checks are skipped). -/
def validLeadW : Lead where
  call_id := "lead_ok"
  agent_id := some "agent_1"
  client_name := some "John Doe"
  client_email := some "john@example.com"
  client_address := some "123 Main St, Huntington, NY 11746, USA"
  from_number := some "15551234567"
  appointment_date := none
  appointment_start := none
  appointment_end := none
  job_description := some "repair"

/-- Lead with an absent client_email, for the validation-gate witness. -/
def leadNoEmail : Lead where
  call_id := "lead_bad"
  agent_id := some "agent_1"
  client_name := some "Jane Roe"
  client_email := none
  client_address := some "123 Main St, Huntington, NY 11746, USA"
  from_number := some "15551234567"
  appointment_date := none
  appointment_start := none
  appointment_end := none
  job_description := none

/-- Lead with the appointment of the booking-time-translation witness and a
valid email. -/
def leadJune : Lead where
  call_id := "lead_june"
  agent_id := some "agent_1"
  client_name := some "Jane Roe"
  client_email := some "jane@example.com"
  client_address := none
  from_number := some "15551234567"
  appointment_date := some "2025-06-01"
  appointment_start := some "09:00"
  appointment_end := none
  job_description := some "fix sink"

/-- Payload of the booking-time-translation witness: the payload built for
leadJune at offset -300 minutes. -/
def c4Payload : ZTBookingPayload :=
  (transformLeadToZTBooking leadJune 3 (some "America/Chicago") (fun _ => -300)
      envW).toOption.getD default

/- ------------------------------------------------------------------
   Shared helper lemmas.
   ------------------------------------------------------------------ -/

/-- Field of a buildGPTUpdate object that turned out present forces the stored
column null and a truthy (hence non-null, non-empty) source value. -/
theorem ifUpdateField_some {stored src : Option String} {v : String}
    (h : (if stored = none ∧ jsTruthy src then src else none) = some v) :
    stored = none ∧ src = some v ∧ v ≠ "" := by
  by_cases hc : stored = none ∧ jsTruthy src
  · rw [if_pos hc] at h
    refine ⟨hc.1, h, ?_⟩
    have ht := hc.2
    rw [h] at ht
    simpa [jsTruthy] using ht
  · rw [if_neg hc] at h
    exact absurd h (by simp)

/-- Payload built by transformLeadToZTBooking carries the company identifier it
was given. -/
theorem transform_carries_companyId (lead : Lead) (cid : Int) (tzn : Option String)
    (offFn : String → Int) (env : JsEnv) (p : ZTBookingPayload)
    (h : transformLeadToZTBooking lead cid tzn offFn env = .ok p) : p.companyId = cid := by
  simp only [transformLeadToZTBooking] at h
  split at h
  · exact absurd h (by simp)
  · split at h
    · exact absurd h (by simp)
    · rw [Except.ok.injEq] at h
      rw [← h]

/-- Soundness of the auditSeen checker: when it accepts a trace, every queue
update either has an earlier audit write with the same status, or the status
was in the initial seen set. -/
theorem auditSeen_sound (evs : List Event) (seen : List String)
    (hchk : auditSeen seen evs = true) (i : Nat) (st : String) (bid msg : Option String)
    (h : evs.get? i = some (.queueUpdate st bid msg)) :
    (∃ j bid2 msg2, j < i ∧ evs.get? j = some (.auditWrite st bid2 msg2)) ∨ st ∈ seen := by
  induction evs generalizing seen i with
  | nil => simp at h
  | cons e rest ih =>
    cases e with
    | auditWrite st0 bid0 msg0 =>
      rw [show auditSeen seen (Event.auditWrite st0 bid0 msg0 :: rest) =
        auditSeen (st0 :: seen) rest from rfl] at hchk
      cases i with
      | zero => simp at h
      | succ i2 =>
        rw [List.get?_cons_succ] at h
        rcases ih (st0 :: seen) hchk i2 h with ⟨j, bid2, msg2, hj, hg⟩ | hmem
        · exact Or.inl ⟨j + 1, bid2, msg2, by omega, by rwa [List.get?_cons_succ]⟩
        · rcases List.mem_cons.mp hmem with rfl | hmem2
          · exact Or.inl ⟨0, bid0, msg0, by omega, rfl⟩
          · exact Or.inr hmem2
    | queueUpdate st0 bid0 msg0 =>
      rw [show auditSeen seen (Event.queueUpdate st0 bid0 msg0 :: rest) =
        (if st0 ∈ seen then auditSeen seen rest else false) from rfl] at hchk
      by_cases hmem : st0 ∈ seen
      · rw [if_pos hmem] at hchk
        cases i with
        | zero =>
          rw [List.get?_cons_zero, Option.some.injEq, Event.queueUpdate.injEq] at h
          exact Or.inr (h.1 ▸ hmem)
        | succ i2 =>
          rw [List.get?_cons_succ] at h
          rcases ih seen hchk i2 h with ⟨j, bid2, msg2, hj, hg⟩ | hmem2
          · exact Or.inl ⟨j + 1, bid2, msg2, by omega, by rwa [List.get?_cons_succ]⟩
          · exact Or.inr hmem2
      · rw [if_neg hmem] at hchk
        exact absurd hchk (by simp)
    | bookingCall =>
      rw [show auditSeen seen (Event.bookingCall :: rest) = auditSeen seen rest from rfl] at hchk
      cases i with
      | zero => simp at h
      | succ i2 =>
        rw [List.get?_cons_succ] at h
        rcases ih seen hchk i2 h with ⟨j, bid2, msg2, hj, hg⟩ | hmem
        · exact Or.inl ⟨j + 1, bid2, msg2, by omega, by rwa [List.get?_cons_succ]⟩
        · exact Or.inr hmem

/-- Every per-item trace of the booking-sync loop passes the auditSeen check. -/
theorem processItemTrace_auditSeen (env : JsEnv) (s : ItemScenario) :
    auditSeen [] (processItemTrace env s) = true := by
  cases s <;> simp only [processItemTrace, catchTrace] <;>
    (repeat' split) <;> simp [auditSeen]

/- ------------------------------------------------------------------
   Claim theorems.
   ------------------------------------------------------------------ -/

/-- C1: the record reconciler excludes a snapshot exactly when its call_id is
stored with terminal status ended or failed; snapshots stored with a
non-terminal status or not stored at all are kept; the decision ignores
snapshot content; and the output preserves input order (it is a sublist of the
input). -/
theorem c1_reconciler_terminal_skip (calls : List RawCall) (existing : String → Option String) :
    (∀ c, c ∈ filterCallsForProcessing calls existing ↔
      c ∈ calls ∧ needsProcessing existing c = true) ∧
    (filterCallsForProcessing calls existing).Sublist calls ∧
    (∀ c st, existing c.call_id = some st → st = "ended" ∨ st = "failed" →
      needsProcessing existing c = false) ∧
    (∀ c st, existing c.call_id = some st → st ≠ "ended" → st ≠ "failed" →
      needsProcessing existing c = true) ∧
    (∀ c, existing c.call_id = none → needsProcessing existing c = true) ∧
    (∀ c c2, c.call_id = c2.call_id →
      needsProcessing existing c = needsProcessing existing c2) := by
  refine ⟨fun c => List.mem_filter, List.filter_sublist _, ?_, ?_, ?_, ?_⟩
  · intro c st h hst
    unfold needsProcessing
    rw [h]
    rcases hst with rfl | rfl <;> rfl
  · intro c st h h1 h2
    unfold needsProcessing
    rw [h]
    simp [h1, h2]
  · intro c h
    unfold needsProcessing
    rw [h]
  · intro c c2 h
    unfold needsProcessing
    rw [h]

/-- Witness for C1 at a concrete batch: the snapshot stored as ended is
excluded, the ongoing and unseen ones are kept in order, and the decision is
the same for a content variant of the ended snapshot. -/
theorem c1_reconciler_terminal_skip_witness :
    needsProcessing storedLookupW rawEnded = false ∧
    needsProcessing storedLookupW rawOngoing = true ∧
    needsProcessing storedLookupW rawNew = true ∧
    needsProcessing storedLookupW rawEnded = needsProcessing storedLookupW rawEndedVariant ∧
    filterCallsForProcessing [rawEnded, rawOngoing, rawNew] storedLookupW =
      [rawOngoing, rawNew] :=
  have h := c1_reconciler_terminal_skip [rawEnded, rawOngoing, rawNew] storedLookupW
  ⟨h.2.2.1 rawEnded "ended" (by decide) (Or.inl rfl),
   h.2.2.2.1 rawOngoing "ongoing" (by decide) (by decide) (by decide),
   h.2.2.2.2.1 rawNew (by decide),
   h.2.2.2.2.2 rawEnded rawEndedVariant (by decide),
   by decide⟩

/-- C6: the date-normalization table of normalizeDateFields: "unknown" in the
date role is null; "2024-03-10" passes through; the number 1710000000000
becomes its calendar date 2024-03-09; "next week" in the time role is null;
"14:30" passes through; "around 2pm" is null; and every non-epoch time-role
string either matches H:MM[:SS] and passes through trimmed, or becomes null. -/
theorem c6_normalize_date_table :
    normalizeFieldValue "appointment_date" (.str "unknown") = none ∧
    normalizeFieldValue "appointment_date" (.str "2024-03-10") = some (.str "2024-03-10") ∧
    normalizeFieldValue "appointment_date" (.num 1710000000000) = some (.str "2024-03-09") ∧
    normalizeFieldValue "appointment_time" (.str "next week") = none ∧
    normalizeFieldValue "appointment_time" (.str "14:30") = some (.str "14:30") ∧
    normalizeFieldValue "appointment_time" (.str "around 2pm") = none ∧
    (∀ f s, f = "appointment_time" ∨ f = "appointment_start" ∨ f = "appointment_end" →
      isEpochDigits (jsTrim s) = false →
      (normalizeFieldValue f (.str s) = some (.str (jsTrim s)) ∧
        timeRegexMatches (jsTrim s) = true) ∨
      normalizeFieldValue f (.str s) = none) := by
  refine ⟨by decide, by decide, by decide, by decide, by decide, by decide, ?_⟩
  intro f s hf he
  have hd : ¬(f = "appointment_date") := by
    rcases hf with rfl | rfl | rfl <;> decide
  have htf : f = "appointment_time" ∨ f = "appointment_start" ∨ f = "appointment_end" := hf
  by_cases hp : isUnknownPlaceholder (jsTrim s) = true
  · right
    simp [normalizeFieldValue, hp]
  · by_cases ht : timeRegexMatches (jsTrim s) = true
    · left
      refine ⟨?_, ht⟩
      simp [normalizeFieldValue, hp, he, hd, htf, ht]
    · right
      simp [normalizeFieldValue, hp, he, hd, htf, ht]

/-- Witness for C6 at the concrete time-role input "around 2pm". -/
theorem c6_normalize_date_table_witness :
    (normalizeFieldValue "appointment_time" (.str "around 2pm") =
        some (.str (jsTrim "around 2pm")) ∧
      timeRegexMatches (jsTrim "around 2pm") = true) ∨
    normalizeFieldValue "appointment_time" (.str "around 2pm") = none :=
  c6_normalize_date_table.2.2.2.2.2.2 "appointment_time" "around 2pm" (Or.inl rfl) (by decide)

/-- C7: formatPhoneNumber is total; an input whose digit form has exactly 10
digits, or 11 digits led by 1, is formatted as "(NXX) NXX-XXXX"; every other
input, including absent input, yields the fixed placeholder and is never
passed through unmodified. -/
theorem c7_format_phone_total (s : String) :
    ((s.toList.filter Char.isDigit).length = 11 →
      (s.toList.filter Char.isDigit).head? = some '1' →
      formatPhoneNumber (some s) =
        "(" ++ String.mk (((s.toList.filter Char.isDigit).drop 1).take 3) ++ ") " ++
          String.mk (((s.toList.filter Char.isDigit).drop 4).take 3) ++ "-" ++
          String.mk (((s.toList.filter Char.isDigit).drop 7).take 4)) ∧
    ((s.toList.filter Char.isDigit).length = 10 →
      formatPhoneNumber (some s) =
        "(" ++ String.mk ((s.toList.filter Char.isDigit).take 3) ++ ") " ++
          String.mk (((s.toList.filter Char.isDigit).drop 3).take 3) ++ "-" ++
          String.mk (((s.toList.filter Char.isDigit).drop 6).take 4)) ∧
    (¬((s.toList.filter Char.isDigit).length = 10 ∨
        ((s.toList.filter Char.isDigit).length = 11 ∧
          (s.toList.filter Char.isDigit).head? = some '1')) →
      formatPhoneNumber (some s) = "(555) 555-5555" ∧ formatPhoneNumber (some s) ≠ s) ∧
    formatPhoneNumber none = "(555) 555-5555" ∧
    formatPhoneNumber (some "15551234567") = "(555) 123-4567" ∧
    formatPhoneNumber (some "abc") = "(555) 555-5555" := by
  refine ⟨?_, ?_, ?_, rfl, by decide, by decide⟩
  · intro h11 h1
    have hs : ¬(s = "") := by
      intro hempty
      rw [hempty] at h11
      simp at h11
    simp only [formatPhoneNumber]
    rw [if_neg hs, if_pos ⟨h11, h1⟩]
  · intro h10
    have hs : ¬(s = "") := by
      intro hempty
      rw [hempty] at h10
      simp at h10
    have hne : ¬((s.toList.filter Char.isDigit).length = 11 ∧
        (s.toList.filter Char.isDigit).head? = some '1') := by
      rintro ⟨h11, _⟩
      omega
    simp only [formatPhoneNumber]
    rw [if_neg hs, if_neg hne, if_pos h10]
  · intro h
    have hfmt : formatPhoneNumber (some s) = "(555) 555-5555" := by
      by_cases hs : s = ""
      · rw [hs]; rfl
      · have h11 : ¬((s.toList.filter Char.isDigit).length = 11 ∧
            (s.toList.filter Char.isDigit).head? = some '1') :=
          fun hc => h (Or.inr hc)
        have h10 : ¬((s.toList.filter Char.isDigit).length = 10) :=
          fun hc => h (Or.inl hc)
        simp only [formatPhoneNumber]
        rw [if_neg hs, if_neg h11, if_neg h10]
    refine ⟨hfmt, ?_⟩
    intro heq
    rw [hfmt] at heq
    apply h
    left
    rw [← heq]
    decide

/-- Witness for C7 at the concrete malformed input "abc". -/
theorem c7_format_phone_total_witness :
    formatPhoneNumber (some "abc") = "(555) 555-5555" ∧ formatPhoneNumber (some "abc") ≠ "abc" :=
  (c7_format_phone_total "abc").2.2.1 (by decide)

/-- C2: the enrichment update contains a contact/schedule field only when that
field is null on the stored record and the extraction supplied a truthy (hence
non-null) value for it (appointment_time drawing from the extracted
appointment_start, see C8); consequently a null client_email is set by a first
enrichment run and left unchanged by a second run with a different non-null
extracted email. -/
theorem c2_enrichment_first_writer_wins (call : StoredCall) (e e2 : Extracted) :
    (∀ v, (buildGPTUpdate call e).client_name = some v →
      call.client_name = none ∧ e.client_name = some v ∧ v ≠ "") ∧
    (∀ v, (buildGPTUpdate call e).client_address = some v →
      call.client_address = none ∧ e.client_address = some v ∧ v ≠ "") ∧
    (∀ v, (buildGPTUpdate call e).client_email = some v →
      call.client_email = none ∧ e.client_email = some v ∧ v ≠ "") ∧
    (∀ v, (buildGPTUpdate call e).appointment_date = some v →
      call.appointment_date = none ∧ e.appointment_date = some v ∧ v ≠ "") ∧
    (∀ v, (buildGPTUpdate call e).appointment_time = some v →
      call.appointment_time = none ∧ e.appointment_start = some v ∧ v ≠ "") ∧
    (∀ v, (buildGPTUpdate call e).appointment_start = some v →
      call.appointment_start = none ∧ e.appointment_start = some v ∧ v ≠ "") ∧
    (∀ v, (buildGPTUpdate call e).appointment_end = some v →
      call.appointment_end = none ∧ e.appointment_end = some v ∧ v ≠ "") ∧
    (∀ v w, call.client_email = none → e.client_email = some v → v ≠ "" →
      e2.client_email = some w → w ≠ "" →
      (applyGPTUpdate call (buildGPTUpdate call e)).client_email = some v ∧
      (applyGPTUpdate (applyGPTUpdate call (buildGPTUpdate call e))
          (buildGPTUpdate (applyGPTUpdate call (buildGPTUpdate call e)) e2)).client_email =
        some v) := by
  refine ⟨fun v h => ifUpdateField_some (by simpa only [buildGPTUpdate] using h),
    fun v h => ifUpdateField_some (by simpa only [buildGPTUpdate] using h),
    fun v h => ifUpdateField_some (by simpa only [buildGPTUpdate] using h),
    fun v h => ifUpdateField_some (by simpa only [buildGPTUpdate] using h),
    fun v h => ifUpdateField_some (by simpa only [buildGPTUpdate] using h),
    fun v h => ifUpdateField_some (by simpa only [buildGPTUpdate] using h),
    fun v h => ifUpdateField_some (by simpa only [buildGPTUpdate] using h), ?_⟩
  intro v w h1 h2 h3 h4 h5
  have ht : jsTruthy e.client_email = true := by
    rw [h2]
    simp [jsTruthy, h3]
  have hu1 : (buildGPTUpdate call e).client_email = some v := by
    simp only [buildGPTUpdate]
    rw [if_pos ⟨h1, ht⟩]
    exact h2
  have hc1 : (applyGPTUpdate call (buildGPTUpdate call e)).client_email = some v := by
    simp only [applyGPTUpdate]
    rw [hu1]
    rfl
  refine ⟨hc1, ?_⟩
  generalize hg : applyGPTUpdate call (buildGPTUpdate call e) = call1 at hc1 ⊢
  have hu2 : (buildGPTUpdate call1 e2).client_email = none := by
    simp only [buildGPTUpdate]
    rw [if_neg]
    rintro ⟨hn, _⟩
    rw [hc1] at hn
    exact Option.noConfusion hn
  simp only [applyGPTUpdate]
  rw [hu2]
  exact hc1

/-- Witness for C2: two concrete enrichment runs over a record whose
client_email starts null keep the first extracted email. -/
theorem c2_enrichment_first_writer_wins_witness :
    (applyGPTUpdate storedNullEmail (buildGPTUpdate storedNullEmail extractedFirst)).client_email =
      some "first@example.com" ∧
    (applyGPTUpdate (applyGPTUpdate storedNullEmail (buildGPTUpdate storedNullEmail extractedFirst))
        (buildGPTUpdate
          (applyGPTUpdate storedNullEmail (buildGPTUpdate storedNullEmail extractedFirst))
          extractedSecond)).client_email =
      some "first@example.com" :=
  (c2_enrichment_first_writer_wins storedNullEmail extractedFirst
      extractedSecond).2.2.2.2.2.2.2
    "first@example.com" "second@example.com" rfl rfl (by decide) rfl (by decide)

/-- C8: the enrichment update fills appointment_time from the extraction
result's appointment_start, and the extraction result's own appointment_time
value has no influence on the built update. -/
theorem c8_appointment_time_from_start (call : StoredCall) (e : Extracted) (x : Option String) :
    (∀ v, (buildGPTUpdate call e).appointment_time = some v → e.appointment_start = some v) ∧
    (call.appointment_time = none → jsTruthy e.appointment_start = true →
      (buildGPTUpdate call e).appointment_time = e.appointment_start) ∧
    buildGPTUpdate call { e with appointment_time := x } = buildGPTUpdate call e := by
  refine ⟨fun v h => (ifUpdateField_some (by simpa only [buildGPTUpdate] using h)).2.1, ?_, ?_⟩
  · intro h1 h2
    simp only [buildGPTUpdate]
    rw [if_pos ⟨h1, h2⟩]
  · cases e
    rfl

/-- Witness for C8: a concrete update fills appointment_time with the extracted
appointment_start value. -/
theorem c8_appointment_time_from_start_witness :
    (buildGPTUpdate storedNullEmail extractedFirst).appointment_time =
      extractedFirst.appointment_start :=
  (c8_appointment_time_from_start storedNullEmail extractedFirst none).2.1 rfl (by decide)

/-- C9: every audit row written by logSyncAttempt with status pending or
success has a null error_message, and every row written with status failed has
a non-null error_message, defaulting to "Unknown error" when no truthy message
was supplied. -/
theorem c9_audit_error_message_invariant (cid st : String) (bid msg : Option String) :
    (st = "pending" ∨ st = "success" → (logSyncAttemptRow cid st bid msg).error_message = none) ∧
    (st = "failed" → (logSyncAttemptRow cid st bid msg).error_message ≠ none) ∧
    (st = "failed" → jsTruthy msg = false →
      (logSyncAttemptRow cid st bid msg).error_message = some "Unknown error") := by
  refine ⟨?_, ?_, ?_⟩
  · rintro (rfl | rfl) <;> simp [logSyncAttemptRow]
  · rintro rfl
    simp [logSyncAttemptRow]
  · rintro rfl hf
    cases msg with
    | none => rfl
    | some m =>
      have hm : m = "" := by simpa [jsTruthy] using hf
      subst hm
      rfl

/-- Witness for C9 at a concrete failed write with no supplied message. -/
theorem c9_audit_error_message_invariant_witness :
    (logSyncAttemptRow "call_9" "failed" none none).error_message = some "Unknown error" :=
  (c9_audit_error_message_invariant "call_9" "failed" none none).2.2 rfl rfl

/-- C10: a login response with a truthy access-token but no company identifier
does not make requestZTToken fail; the result carries the fixed fallback
company identifier 3, and every booking payload built with that identifier
carries companyId 3. -/
theorem c10_company_id_fallback (resp : LoginResponse) (uid : String) (tzf : Option String)
    (t : String) :
    resp.accessToken = some t → t ≠ "" → resp.companyId = none →
    ∃ r, requestZTToken resp uid tzf = .ok r ∧ r.company_id = 3 ∧
      ∀ lead tzn offFn env p,
        transformLeadToZTBooking lead r.company_id tzn offFn env = .ok p → p.companyId = 3 := by
  intro h1 h2 h3
  refine ⟨{ token := t, user_id := uid, company_id := 3, timezone := none }, ?_, rfl, ?_⟩
  · simp only [requestZTToken, h1, h3]
    rw [if_neg h2]
  · intro lead tzn offFn env p hp
    exact transform_carries_companyId lead 3 tzn offFn env p hp

/-- Witness for C10 at a concrete login response without a company identifier. -/
theorem c10_company_id_fallback_witness :
    ∃ r, requestZTToken { accessToken := some "tok", companyId := none } "u1"
        (some "America/New_York") = .ok r ∧ r.company_id = 3 ∧
      ∀ lead tzn offFn env p,
        transformLeadToZTBooking lead r.company_id tzn offFn env = .ok p → p.companyId = 3 :=
  c10_company_id_fallback { accessToken := some "tok", companyId := none } "u1"
    (some "America/New_York") "tok" rfl (by decide) rfl

set_option maxHeartbeats 4000000 in
/-- C4: for a lead with appointment_date 2025-06-01 and appointment_start
09:00 booked into a timezone whose offset-from-UTC is -300 minutes, the
constructed payload's start instant is 2025-06-01T14:00:00Z and its end
instant is 2025-06-01T15:00:00Z (wall clock minus offset, end equal to start
plus 60 minutes). -/
theorem c4_booking_timezone_translation (lead : Lead) (cid : Int) (tzName : String)
    (offFn : String → Int) (env : JsEnv) (p : ZTBookingPayload) :
    tzName ≠ "" → offFn tzName = -300 →
    lead.appointment_date = some "2025-06-01" → lead.appointment_start = some "09:00" →
    transformLeadToZTBooking lead cid (some tzName) offFn env = .ok p →
    p.startBookingTime = jsToISOString (utcMs 2025 6 1 14 0 0) ∧
    p.endBookingTime = jsToISOString (utcMs 2025 6 1 15 0 0) := by
  intro h1 h2 h3 h4 h5
  have htimes : transformTimes lead (-300) env =
      .ok (jsToISOString (utcMs 2025 6 1 14 0 0), jsToISOString (utcMs 2025 6 1 15 0 0),
        jsToISOString (utcMs 2025 6 1 14 0 0)) := by
    simp only [transformTimes, h3, h4]
    rw [if_pos ⟨rfl, rfl⟩]
    rfl
  simp only [transformLeadToZTBooking] at h5
  rw [if_neg h1, h2] at h5
  split at h5
  · exact absurd h5 (by simp)
  · rename_i triple heq
    rw [htimes, Except.ok.injEq, Prod.mk.injEq, Prod.mk.injEq] at heq
    obtain ⟨hq1, hq2, hq3⟩ := heq
    subst hq1
    subst hq2
    subst hq3
    split at h5
    · exact absurd h5 (by simp)
    · rw [Except.ok.injEq] at h5
      subst h5
      exact ⟨rfl, rfl⟩

set_option maxHeartbeats 4000000 in
/-- Witness for C4: the concrete lead for 2025-06-01 09:00 at offset -300
yields exactly the 14:00Z and 15:00Z instants. -/
theorem c4_booking_timezone_translation_witness :
    transformLeadToZTBooking leadJune 3 (some "America/Chicago") (fun _ => -300) envW =
      .ok c4Payload ∧
    c4Payload.startBookingTime = jsToISOString (utcMs 2025 6 1 14 0 0) ∧
    c4Payload.endBookingTime = jsToISOString (utcMs 2025 6 1 15 0 0) :=
  have h : transformLeadToZTBooking leadJune 3 (some "America/Chicago") (fun _ => -300) envW =
      .ok c4Payload := by rfl
  ⟨h, c4_booking_timezone_translation leadJune 3 "America/Chicago" (fun _ => -300) envW
    c4Payload (by decide) rfl rfl rfl h⟩

/-- C3: in every execution shape of a booking-sync queue item, a queue-entry
status update at position i of the emitted write trace is strictly preceded by
an audit write carrying the same status. -/
theorem c3_audit_before_status (env : JsEnv) (s : ItemScenario) (i : Nat) (st : String)
    (bid msg : Option String) :
    (processItemTrace env s).get? i = some (.queueUpdate st bid msg) →
    ∃ j bid2 msg2, j < i ∧
      (processItemTrace env s).get? j = some (.auditWrite st bid2 msg2) := by
  intro h
  rcases auditSeen_sound (processItemTrace env s) [] (processItemTrace_auditSeen env s)
      i st bid msg h with h2 | h2
  · exact h2
  · exact absurd h2 (List.not_mem_nil st)

/-- Witness for C3: in the concrete successful-booking trace the queue update
at position 3 is preceded by the success audit write. -/
theorem c3_audit_before_status_witness :
    ∃ j bid2 msg2, j < 3 ∧
      (processItemTrace envW (.normal validLeadW (.success (some "B1")) true)).get? j =
        some (.auditWrite "success" bid2 msg2) :=
  c3_audit_before_status envW (.normal validLeadW (.success (some "B1")) true) 3 "success"
    (some "B1") none (by decide)

/-- C5: for every lead whose client_email is absent, a placeholder, or fails
the clean-email pattern, validation returns invalid with the email error in
its error list, the per-item trace writes the failed audit entry (whose
message carries the joined validation errors) and then the failed queue
transition with the joined validation errors, and no booking-creation call is
made. -/
theorem c5_validation_email_gate (env : JsEnv) (lead : Lead) (b : BookingOutcome)
    (catchOk : Bool) :
    emailMissingOrInvalid lead = true →
    (validateLeadData env lead).isValid = false ∧
    "Missing or invalid email address" ∈ (validateLeadData env lead).errors ∧
    processItemTrace env (.normal lead b catchOk) =
      [.auditWrite "failed" none
        (some ("Validation failed: " ++
          String.intercalate ", " (validateLeadData env lead).errors)),
       .queueUpdate "failed" none
        (some (String.intercalate ", " (validateLeadData env lead).errors))] ∧
    Event.bookingCall ∉ processItemTrace env (.normal lead b catchOk) := by
  intro h
  have hval : (validateLeadData env lead).isValid = false := by
    simp [validateLeadData, h]
  have hmem : "Missing or invalid email address" ∈ (validateLeadData env lead).errors := by
    simp [validateLeadData, h]
  have htr : processItemTrace env (.normal lead b catchOk) =
      [.auditWrite "failed" none
        (some ("Validation failed: " ++
          String.intercalate ", " (validateLeadData env lead).errors)),
       .queueUpdate "failed" none
        (some (String.intercalate ", " (validateLeadData env lead).errors))] := by
    simp only [processItemTrace]
    rw [if_neg (by simp [hval])]
  refine ⟨hval, hmem, htr, ?_⟩
  rw [htr]
  simp

/-- Witness for C5 at a concrete lead with an absent client_email. -/
theorem c5_validation_email_gate_witness :
    (validateLeadData envW leadNoEmail).isValid = false ∧
    "Missing or invalid email address" ∈ (validateLeadData envW leadNoEmail).errors ∧
    processItemTrace envW (.normal leadNoEmail (.success (some "B9")) true) =
      [.auditWrite "failed" none
        (some ("Validation failed: " ++
          String.intercalate ", " (validateLeadData envW leadNoEmail).errors)),
       .queueUpdate "failed" none
        (some (String.intercalate ", " (validateLeadData envW leadNoEmail).errors))] ∧
    Event.bookingCall ∉ processItemTrace envW (.normal leadNoEmail (.success (some "B9")) true) :=
  c5_validation_email_gate envW leadNoEmail (.success (some "B9")) true rfl

end Getlisa
